import Mathlib

/-!
Verification of the sale/stock and mobile-payment reconciliation core of the
jenifer-inventory backend, as a shallow embedding in Lean 4.

The definitions below are translated from the JavaScript source:
  * `Product.updateStock`   from backend/src/models/Product.js (productSchema.methods.updateStock)
  * the Sale model (totals hook, void, refund) from backend/src/models/Sale.js
  * `Counter.getNextSequence` from backend/src/models/Counter.js
  * the Order status machine from backend/src/models/Order.js and
    backend/src/controllers/orderController.js
  * the M-Pesa transaction state updates from
    backend/src/controllers/dashboardController.js

Modelling conventions: JavaScript numbers are carried as `Int` where the
program only ever holds integers (stock counts, quantities, sequence
numbers) and as `ℚ` where money arithmetic occurs; the special value NaN
(which arises in the totals hook from reading a schema field that does not
exist) is carried by `JsNum := Option ℚ` with `none` for NaN/undefined.
Date-valued audit fields that no claim depends on (movement timestamps,
`lastSoldDate`, `packingCompleted`, `actualDeliveryDate`) are modelled as
Boolean "was stamped" markers; calendar dates relevant to the counter's
reset logic are modelled by their (year, month, day) triple as JavaScript's
`toDateString`/`getMonth`/`getFullYear` expose them.  Persistence
(`await doc.save()`) is modelled by returning the updated record; a store of
product documents is an association list keyed by product id, updated in
place exactly where the source performs a save.
-/

/-- The six stock movement types of the product schema enum
{purchase, sale, return, adjustment, damage, transfer}.  `return` is a Lean
keyword, so that constructor is named `ret`. -/
inductive MovementType
  | purchase
  | sale
  | ret
  | adjustment
  | damage
  | transfer
deriving DecidableEq, Repr

/-- One entry of `productSchema.stockMovements`, as pushed by `updateStock`
(the schema-defaulted timestamp is not modelled). -/
structure StockMovement where
  type : MovementType
  quantity : Int
  previousStock : Int
  newStock : Int
  reference : String
  reason : Option String
  performedBy : String
deriving DecidableEq, Repr

/-- The pricing fields `updateStock` and `effectivePrice` read. -/
structure Pricing where
  cost : ℚ
  sellingPrice : ℚ
  discount : ℚ
deriving DecidableEq, Repr

/-- The rolling analytics counters updated on `sale` movements;
`lastSoldDateSet` marks that `lastSoldDate` was stamped. -/
structure Performance where
  totalSold : Int
  totalRevenue : ℚ
  lastSoldDateSet : Bool
deriving DecidableEq, Repr

/-- The inventory subdocument of a product. -/
structure Inventory where
  currentStock : Int
  minStock : Int
  allowBackorder : Bool
  trackInventory : Bool
deriving DecidableEq, Repr

/-- A product document, restricted to the fields the claims exercise. -/
structure Product where
  id : String
  name : String
  isActive : Bool
  pricing : Pricing
  inventory : Inventory
  stockMovements : List StockMovement
  performance : Performance
deriving DecidableEq, Repr

/-- `productSchema.virtual("effectivePrice")`: selling price after the
product-level percentage discount. -/
def Product.effectivePrice (p : Product) : ℚ :=
  p.pricing.sellingPrice * (1 - p.pricing.discount / 100)

/-- The movement-history cap of `updateStock`: after the push, if more than
100 movements are stored, keep only the last 100 (`slice(-100)`). -/
def last100 (l : List StockMovement) : List StockMovement :=
  if l.length > 100 then l.drop (l.length - 100) else l

deriving instance DecidableEq for Except

/-- `productSchema.methods.updateStock(quantity, type, reference, userId,
reason)`: compute the new stock by movement type (decreasing types subtract,
increasing types add), throw "Insufficient stock" when the result is
negative and backorder is not allowed, otherwise write the new stock, push
one stock movement (capped at 100), update the sale analytics, and save.
The plain `await this.save()` runs the schema validators on the modified
paths, and `inventory.currentStock` carries `min: [0, "Stock cannot be
negative"]` — so when backorder is allowed and the new stock is negative,
the method's own guard passes but the save throws the validation error
"Stock cannot be negative" and nothing persists.  (The stock-movement
subdocument fields have no min validators.) -/
def Product.updateStock (p : Product) (quantity : Int) (type : MovementType)
    (reference : String) (userId : String) (reason : Option String) :
    Except String Product :=
  let previousStock := p.inventory.currentStock
  let newStock :=
    match type with
    | .sale => previousStock - quantity
    | .damage => previousStock - quantity
    | .transfer => previousStock - quantity
    | .purchase => previousStock + quantity
    | .ret => previousStock + quantity
    | .adjustment => previousStock + quantity
  if newStock < 0 ∧ p.inventory.allowBackorder = false then
    .error "Insufficient stock"
  else
    let movements := last100 (p.stockMovements ++
      [{ type := type, quantity := quantity, previousStock := previousStock,
         newStock := newStock, reference := reference, reason := reason,
         performedBy := userId }])
    let perf :=
      if type = .sale then
        { totalSold := p.performance.totalSold + quantity,
          totalRevenue := p.performance.totalRevenue +
            (quantity : ℚ) * p.effectivePrice,
          lastSoldDateSet := true }
      else p.performance
    if newStock < 0 then
      .error "Stock cannot be negative"
    else
      .ok { p with
        inventory := { p.inventory with currentStock := newStock },
        stockMovements := movements,
        performance := perf }

/-- The stock movement `updateStock` records for a given call, written out
for use in specification statements. -/
def recordedMovement (p : Product) (quantity : Int) (type : MovementType)
    (reference : String) (userId : String) (reason : Option String)
    (proposed : Int) : StockMovement :=
  { type := type, quantity := quantity,
    previousStock := p.inventory.currentStock, newStock := proposed,
    reference := reference, reason := reason, performedBy := userId }

/-- The stock the claim says a movement proposes: the decreasing types
{sale, damage, transfer} subtract the quantity, the increasing types
{purchase, return, adjustment} add it.  Stated in the claim's words to be
compared against `Product.updateStock`. -/
def proposedStock (t : MovementType) (current q : Int) : Int :=
  if t = MovementType.sale ∨ t = MovementType.damage ∨ t = MovementType.transfer
  then current - q else current + q

/-- A backorder-enabled product holding 1 unit; selling 5 would drive the
stock to -4. -/
def pBackorder : Product :=
  { id := "p3", name := "Bulk rice", isActive := true,
    pricing := { cost := 40, sellingPrice := 80, discount := 0 },
    inventory := { currentStock := 1, minStock := 0,
                   allowBackorder := true, trackInventory := true },
    stockMovements := [], performance := ⟨0, 0, false⟩ }

/-- C2, counterexample: with backorder allowed and a negative proposed
stock — the case the claim's "otherwise" clause asserts to succeed — the
method's own guard passes, but the save-time schema validation on
`inventory.currentStock` (min 0) throws "Stock cannot be negative" and
nothing persists: the call neither fails with the insufficient-stock error
nor succeeds. -/
theorem updateStock_backorder_validation_throws :
    pBackorder.inventory.allowBackorder = true ∧
    proposedStock MovementType.sale pBackorder.inventory.currentStock 5 < 0 ∧
    pBackorder.updateStock 5 MovementType.sale "RCP0002" "u1" none =
      Except.error "Stock cannot be negative" ∧
    pBackorder.updateStock 5 MovementType.sale "RCP0002" "u1" none ≠
      Except.error "Insufficient stock" := by decide

/-- C2, amended: for every call to `updateStock(quantity, type, reference,
userId, reason)`, the proposed stock is current minus quantity for the
decreasing types {sale, damage, transfer} and current plus quantity for the
increasing types {purchase, return, adjustment}; the call fails with the
insufficient-stock error exactly when the proposed stock is negative and
backorder is disallowed; it fails with the save-time validation error
"Stock cannot be negative" exactly when the proposed stock is negative and
backorder is allowed (the schema's min-0 validator runs on save, so this
path persists nothing either); and it succeeds exactly when the proposed
stock is nonnegative, in which case the current stock becomes the proposed
value and exactly one stock movement recording the type, quantity, previous
stock and new stock is appended (the history being capped at its last 100
entries). -/
theorem updateStock_spec (p : Product) (q : Int) (t : MovementType)
    (ref uid : String) (reason : Option String) :
    (p.updateStock q t ref uid reason = Except.error "Insufficient stock" ↔
      proposedStock t p.inventory.currentStock q < 0 ∧
        p.inventory.allowBackorder = false) ∧
    (p.updateStock q t ref uid reason = Except.error "Stock cannot be negative" ↔
      proposedStock t p.inventory.currentStock q < 0 ∧
        p.inventory.allowBackorder = true) ∧
    (∀ r, p.updateStock q t ref uid reason = Except.ok r →
      r.inventory.currentStock = proposedStock t p.inventory.currentStock q ∧
      r.stockMovements =
        last100 (p.stockMovements ++
          [recordedMovement p q t ref uid reason
            (proposedStock t p.inventory.currentStock q)])) ∧
    (0 ≤ proposedStock t p.inventory.currentStock q →
      ∃ r, p.updateStock q t ref uid reason = Except.ok r) := by
  cases t <;>
    · refine ⟨⟨?_, ?_⟩, ⟨?_, ?_⟩, ?_, ?_⟩
      · intro h
        dsimp only [Product.updateStock] at h
        split at h
        · rename_i hcond
          simpa [proposedStock] using hcond
        · split at h
          · exact absurd h (by decide)
          · simp at h
      · intro h
        dsimp only [Product.updateStock]
        rw [if_pos (by simpa [proposedStock] using h)]
      · intro h
        dsimp only [Product.updateStock] at h
        split at h
        · exact absurd h (by decide)
        · split at h
          · rename_i hc1 hc2
            refine ⟨by simpa [proposedStock] using hc2, ?_⟩
            by_cases hb : p.inventory.allowBackorder = true
            · exact hb
            · exact absurd ⟨hc2, by simpa using hb⟩ hc1
          · simp at h
      · intro h
        dsimp only [Product.updateStock]
        rw [if_neg (by simp [h.2]), if_pos (by simpa [proposedStock] using h.1)]
      · intro r hr
        dsimp only [Product.updateStock] at hr
        split at hr
        · simp at hr
        · split at hr
          · simp at hr
          · simp only [Except.ok.injEq] at hr
            subst hr
            exact ⟨by simp [proposedStock], by simp [proposedStock, recordedMovement]⟩
      · intro h
        dsimp only [Product.updateStock]
        rw [if_neg ?neg1, if_neg ?neg2]
        · exact ⟨_, rfl⟩
        case neg1 =>
          simp only [proposedStock] at h
          intro hc
          simp at h
          omega
        case neg2 =>
          simp only [proposedStock] at h
          simp at h
          omega

/-- A concrete product used by several witnesses: 10 units in stock,
inventory tracked, backorder disallowed. -/
def pWitness : Product :=
  { id := "p1", name := "Soda", isActive := true,
    pricing := { cost := 50, sellingPrice := 100, discount := 0 },
    inventory := { currentStock := 10, minStock := 2,
                   allowBackorder := false, trackInventory := true },
    stockMovements := [], performance := ⟨0, 0, false⟩ }

/-- Witness for C2 (amended): the specification instantiated at a concrete
sale of 3 units from stock 10. -/
theorem updateStock_spec_witness :
    (pWitness.updateStock 3 MovementType.sale "RCP0001" "u1" none =
        Except.error "Insufficient stock" ↔
      proposedStock MovementType.sale pWitness.inventory.currentStock 3 < 0 ∧
        pWitness.inventory.allowBackorder = false) ∧
    (pWitness.updateStock 3 MovementType.sale "RCP0001" "u1" none =
        Except.error "Stock cannot be negative" ↔
      proposedStock MovementType.sale pWitness.inventory.currentStock 3 < 0 ∧
        pWitness.inventory.allowBackorder = true) ∧
    (∀ r, pWitness.updateStock 3 MovementType.sale "RCP0001" "u1" none = Except.ok r →
      r.inventory.currentStock =
        proposedStock MovementType.sale pWitness.inventory.currentStock 3 ∧
      r.stockMovements =
        last100 (pWitness.stockMovements ++
          [recordedMovement pWitness 3 MovementType.sale "RCP0001" "u1" none
            (proposedStock MovementType.sale pWitness.inventory.currentStock 3)])) ∧
    (0 ≤ proposedStock MovementType.sale pWitness.inventory.currentStock 3 →
      ∃ r, pWitness.updateStock 3 MovementType.sale "RCP0001" "u1" none =
        Except.ok r) :=
  updateStock_spec pWitness 3 MovementType.sale "RCP0001" "u1" none

/-! ## Sequence/Counter service (backend/src/models/Counter.js) -/

/-- A calendar date as the counter logic observes it: `toDateString`
distinguishes exactly the (year, month, day) triple, `getMonth`/`getFullYear`
project the components. -/
structure JsDate where
  year : Int
  month : Nat
  day : Nat
deriving DecidableEq, Repr

/-- The counter schema's reset periods. -/
inductive ResetPeriod
  | daily
  | monthly
  | yearly
  | never
deriving DecidableEq, Repr

/-- A counter document.  The schema default for `seq` is 0; `lastReset`
defaults to the creation time.  The unused string affix fields are not
modelled. -/
structure Counter where
  seq : Int
  resetPeriod : ResetPeriod
  lastReset : JsDate
deriving DecidableEq, Repr

/-- The reset test of `getNextSequence`: daily compares the whole calendar
date (`toDateString`), monthly the month or year, yearly the year. -/
def shouldResetCounter (c : Counter) (now : JsDate) : Bool :=
  match c.resetPeriod with
  | .daily => now != c.lastReset
  | .monthly => now.month != c.lastReset.month || now.year != c.lastReset.year
  | .yearly => now.year != c.lastReset.year
  | .never => false

/-- The counter `this.create({_id: counterId})` builds when no counter
exists: all schema defaults (the receipt caller passes no options). -/
def Counter.defaultCreate (now : JsDate) : Counter :=
  { seq := 0, resetPeriod := .never, lastReset := now }

/-- `counterSchema.statics.getNextSequence`: when no counter exists, create
one from the defaults and return its `seq`; otherwise reset `seq` to 1 and
stamp `lastReset` when the reset boundary was crossed, else increment `seq`,
and return the saved counter's `seq`. -/
def getNextSequence (existing : Option Counter) (now : JsDate) : Counter × Int :=
  match existing with
  | none =>
      let newCounter := Counter.defaultCreate now
      (newCounter, newCounter.seq)
  | some counter =>
      if shouldResetCounter counter now then
        let c := { counter with seq := 1, lastReset := now }
        (c, c.seq)
      else
        let c := { counter with seq := counter.seq + 1 }
        (c, c.seq)

/-- C4, counterexample: the first call on a key does not return a value of
at least 1 — it creates the counter with the schema default `seq = 0` and
returns that 0 without incrementing. -/
theorem getNextSequence_first_call_zero :
    (getNextSequence none ⟨2026, 9, 12⟩).2 = 0 ∧
    ¬(1 ≤ (getNextSequence none ⟨2026, 9, 12⟩).2) := by decide

/-- C4, amended: the first call creates the counter and returns the default
`seq` 0; every call on an existing counter either resets `seq` to 1 (when
the reset boundary was crossed, stamping `lastReset`) or increments it by
exactly 1, returning the resulting `seq`; hence two consecutive calls within
one reset period return values that increase by exactly 1. -/
theorem getNextSequence_spec (c : Counter) (now : JsDate) :
    (getNextSequence none now = (Counter.defaultCreate now, 0)) ∧
    (shouldResetCounter c now = true →
      getNextSequence (some c) now = ({ c with seq := 1, lastReset := now }, 1)) ∧
    (shouldResetCounter c now = false →
      getNextSequence (some c) now = ({ c with seq := c.seq + 1 }, c.seq + 1)) ∧
    (shouldResetCounter c now = false →
      (getNextSequence (some ((getNextSequence (some c) now).1)) now).2 =
        (getNextSequence (some c) now).2 + 1) := by
  refine ⟨rfl, fun h => ?_, fun h => ?_, fun h => ?_⟩
  · simp [getNextSequence, h]
  · simp [getNextSequence, h]
  · have h2 : shouldResetCounter { c with seq := c.seq + 1 } now = false := by
      simpa [shouldResetCounter] using h
    simp [getNextSequence, h, h2]

/-- Witness for C4: a daily counter at seq 5, called twice on the day of its
last reset, returns 6 then 7. -/
theorem getNextSequence_spec_witness :
    (getNextSequence none ⟨2026, 9, 12⟩ = (Counter.defaultCreate ⟨2026, 9, 12⟩, 0)) ∧
    (getNextSequence (some ⟨5, ResetPeriod.daily, ⟨2026, 9, 12⟩⟩) ⟨2026, 9, 12⟩ =
      (⟨5 + 1, ResetPeriod.daily, ⟨2026, 9, 12⟩⟩, 5 + 1)) ∧
    ((getNextSequence (some ((getNextSequence
        (some ⟨5, ResetPeriod.daily, ⟨2026, 9, 12⟩⟩) ⟨2026, 9, 12⟩).1)) ⟨2026, 9, 12⟩).2 =
      (getNextSequence (some ⟨5, ResetPeriod.daily, ⟨2026, 9, 12⟩⟩) ⟨2026, 9, 12⟩).2 + 1) := by
  have h := getNextSequence_spec ⟨5, ResetPeriod.daily, ⟨2026, 9, 12⟩⟩ ⟨2026, 9, 12⟩
  exact ⟨h.1, h.2.2.1 (by decide), h.2.2.2 (by decide)⟩

/-! ## M-Pesa payment reconciliation
(backend/src/controllers/dashboardController.js: checkMpesaPaymentStatus,
mpesaCallback, createSale's payment-verification block) -/

/-- The M-Pesa transaction states. -/
inductive MpesaStatus
  | pending
  | success
  | failed
  | cancelled
deriving DecidableEq, Repr

/-- A MpesaTransaction document.  `callbackDataSet` marks that
`transaction.callbackData = req.body` was assigned; the parse of the
compact transaction-date stamp is not modelled (no claim reads it).
`lastQueryAt` is milliseconds since the epoch. -/
structure MpesaTransaction where
  checkoutRequestId : String
  merchantRequestId : String
  phoneNumber : String
  amount : ℚ
  status : MpesaStatus
  mpesaReceiptNumber : Option String
  resultCode : Option String
  resultDesc : Option String
  retryCount : Int
  lastQueryAt : Option Int
  callbackDataSet : Bool
  sale : Option String
deriving DecidableEq, Repr

/-- The outcome of the outbound `mpesaService.stkQuery` call as the poll
handler observes it: the call threw (handled by the catch block), or it
returned `{success, resultCode, resultDesc}`. -/
inductive StkQueryOutcome
  | threw
  | result (success : Bool) (resultCode : String) (resultDesc : String)
deriving DecidableEq, Repr

/-- The JSON payload the poll endpoint answers with (always wrapped in a
200 response by `res.json`). -/
structure PollResponse where
  status : MpesaStatus
  transactionId : Option String
  resultDesc : Option String
deriving DecidableEq, Repr

/-- `checkMpesaPaymentStatus` after the transaction was found: if the status
is already `success` or `failed`, answer from the record without touching
it; if the last upstream query was under 5 seconds ago, answer from the
record; otherwise consult the upstream query outcome and, when it reports
`success`, map result code 0 to `success`, 1032 to `cancelled` and anything
else to `failed`, stamping resultCode/resultDesc/lastQueryAt and bumping
`retryCount` before saving. -/
def checkMpesaPaymentStatus (t : MpesaTransaction) (now : Int)
    (query : StkQueryOutcome) : MpesaTransaction × PollResponse :=
  if t.status = MpesaStatus.success ∨ t.status = MpesaStatus.failed then
    (t, { status := t.status, transactionId := t.mpesaReceiptNumber,
          resultDesc := t.resultDesc })
  else
    let rateLimited :=
      match t.lastQueryAt with
      | some lastQuery => decide (now - lastQuery < 5000)
      | none => false
    if rateLimited then
      (t, { status := t.status, transactionId := t.mpesaReceiptNumber,
            resultDesc := none })
    else
      match query with
      | .threw =>
          (t, { status := t.status, transactionId := t.mpesaReceiptNumber,
                resultDesc := none })
      | .result success code desc =>
          if success then
            let newStatus :=
              if code = "0" then MpesaStatus.success
              else if code = "1032" then MpesaStatus.cancelled
              else MpesaStatus.failed
            let t2 := { t with
              status := newStatus,
              resultCode := some code,
              resultDesc := some desc,
              lastQueryAt := some now,
              retryCount := t.retryCount + 1 }
            (t2, { status := t2.status, transactionId := t2.mpesaReceiptNumber,
                   resultDesc := t2.resultDesc })
          else
            (t, { status := t.status, transactionId := t.mpesaReceiptNumber,
                  resultDesc := t.resultDesc })

/-- One `{Name, Value}` entry of the callback metadata array. -/
structure MetaItem where
  name : String
  value : String
deriving DecidableEq, Repr

/-- The update `mpesaCallback` applies to a found transaction: stamp
resultCode/resultDesc/callbackData unconditionally, then set status to
`success` (extracting the receipt number from the metadata item named
MpesaReceiptNumber, if present) when the result code is 0, and to `failed`
for any other code.  No guard consults the transaction's current status. -/
def processCallbackTxn (t : MpesaTransaction) (resultCode : Int)
    (resultDesc : String) (metadata : Option (List MetaItem)) :
    MpesaTransaction :=
  let t1 := { t with
    resultCode := some (toString resultCode),
    resultDesc := some resultDesc,
    callbackDataSet := true }
  if resultCode = 0 then
    let t2 := { t1 with status := MpesaStatus.success }
    match metadata with
    | some items =>
        match items.find? (fun item => item.name == "MpesaReceiptNumber") with
        | some item => { t2 with mpesaReceiptNumber := some item.value }
        | none => t2
    | none => t2
  else
    { t1 with status := MpesaStatus.failed }

/-- An inbound callback request body as the handler destructures it:
`malformed` stands for a body on which `const {stkCallback} = Body` throws
(no `Body`, or no `stkCallback`). -/
inductive CallbackReq
  | malformed
  | wellFormed (checkoutRequestId : String) (resultCode : Int)
      (resultDesc : String) (metadata : Option (List MetaItem))
deriving DecidableEq, Repr

/-- An HTTP response: status code and the acknowledgement message. -/
structure HttpResponse where
  status : Nat
  body : String
deriving DecidableEq, Repr

/-- `mpesaCallback`, the full handler: a throw while destructuring the body
lands in the catch block, which answers 500; an unknown checkoutRequestId
answers 200 "Transaction not found"; otherwise the found transaction is
updated by `processCallbackTxn`, saved, and the handler answers 200.
(A failed save would also land in the 500 catch block; the save itself is
modelled as succeeding.) -/
def mpesaCallback (db : List MpesaTransaction) (req : CallbackReq) :
    HttpResponse × List MpesaTransaction :=
  match req with
  | .malformed => ({ status := 500, body := "Callback processing failed" }, db)
  | .wellFormed cid code desc metadata =>
      match db.find? (fun t => t.checkoutRequestId == cid) with
      | none => ({ status := 200, body := "Transaction not found" }, db)
      | some t =>
          let t2 := processCallbackTxn t code desc metadata
          ({ status := 200, body := "Callback processed successfully" },
           db.map (fun u => if u.checkoutRequestId == cid then t2 else u))

/-- A transaction already in the terminal `success` state, with its receipt
number set by a prior callback. -/
def tSuccess : MpesaTransaction :=
  { checkoutRequestId := "ws_CO_1", merchantRequestId := "mr_1",
    phoneNumber := "254712345678", amount := 100,
    status := MpesaStatus.success, mpesaReceiptNumber := some "ABC123",
    resultCode := some "0", resultDesc := some "Success", retryCount := 0,
    lastQueryAt := none, callbackDataSet := true, sale := none }

/-- C1, counterexample: applying the callback path to a transaction already
in the terminal `success` state with a nonzero result code overwrites the
status with `failed` — the record is not left unchanged. -/
theorem mpesa_callback_overwrites_success :
    tSuccess.status = MpesaStatus.success ∧
    (processCallbackTxn tSuccess 1 "Late duplicate callback" none).status =
      MpesaStatus.failed := by
  exact ⟨rfl, rfl⟩

/-- C1, amended: the poll path does leave a transaction whose status is
already `success` or `failed` completely unchanged (it answers from the
record), but this guard does not cover `cancelled`, and the callback path
applies its update regardless of the current status, so a terminal status
can be overwritten (see the counterexample). -/
theorem mpesa_terminal_poll_cached (t : MpesaTransaction) (now : Int)
    (query : StkQueryOutcome)
    (h : t.status = MpesaStatus.success ∨ t.status = MpesaStatus.failed) :
    checkMpesaPaymentStatus t now query =
      (t, { status := t.status, transactionId := t.mpesaReceiptNumber,
            resultDesc := t.resultDesc }) := by
  simp [checkMpesaPaymentStatus, h]

/-- Witness for C1 (amended): polling the concrete successful transaction
with a fresh upstream failure outcome does not change it. -/
theorem mpesa_terminal_poll_cached_witness :
    checkMpesaPaymentStatus tSuccess 999999 (.result true "1" "late fail") =
      (tSuccess, { status := tSuccess.status,
                   transactionId := tSuccess.mpesaReceiptNumber,
                   resultDesc := tSuccess.resultDesc }) :=
  mpesa_terminal_poll_cached tSuccess 999999 (.result true "1" "late fail")
    (Or.inl rfl)

/-- A failure as the sale-creation request path surfaces it: an `AppError`
with a message and HTTP status, or a JavaScript `ReferenceError`. -/
inductive JsFailure
  | appError (message : String) (statusCode : Nat)
  | referenceError (message : String)
deriving DecidableEq, Repr

/-- The M-Pesa verification block of `createSale`, translated statement by
statement.  When the payment method is "mpesa" and a transaction id is
supplied, the controller looks up a MpesaTransaction with that
`mpesaReceiptNumber` in `success` state; if none exists it fails with the
400 AppError "Invalid M-Pesa transaction".  If one exists, the next source
line is `mpesaTransaction.sale = sale._id;` — but `const sale = new
Sale(...)` is declared only later in the same function body, so the `sale`
binding is still in its temporal dead zone and the access throws a
ReferenceError (surfaced by the async handler as a 500): the sale is never
created and the back-reference is never set. -/
def createSaleMpesaGuard (db : List MpesaTransaction) (method : String)
    (transactionId : Option String) : Except JsFailure Unit :=
  if method == "mpesa" then
    match transactionId with
    | some tid =>
        match db.find? (fun t =>
            t.mpesaReceiptNumber == some tid && t.status == MpesaStatus.success) with
        | none => .error (.appError "Invalid M-Pesa transaction" 400)
        | some _ => .error (.referenceError "Cannot access sale before initialization")
    | none => .ok ()
  else .ok ()

/-- C9: when no successful MpesaTransaction matches the supplied reference
the request does fail with the invalid-transaction error, as claimed; but in
the case the claim calls acceptance — a matching transaction in `success`
state exists — the code throws a ReferenceError (`sale` is read before its
`const` declaration), so the sale is never created and the back-reference is
never set.  The claim describes the evident intent; the code is a slip. -/
theorem createSale_mpesa_link_reference_error :
    createSaleMpesaGuard [] "mpesa" (some "ABC123") =
      Except.error (JsFailure.appError "Invalid M-Pesa transaction" 400) ∧
    createSaleMpesaGuard [tSuccess] "mpesa" (some "ABC123") =
      Except.error
        (JsFailure.referenceError "Cannot access sale before initialization") := by
  exact ⟨rfl, rfl⟩

/-- C10, counterexample: a malformed callback body (one without
`Body.stkCallback`) makes the handler throw while destructuring, and the
catch block answers HTTP 500, not 200. -/
theorem mpesaCallback_malformed_500 :
    (mpesaCallback [] CallbackReq.malformed).1.status = 500 ∧
    (mpesaCallback [] CallbackReq.malformed).1.status ≠ 200 := by
  exact ⟨rfl, by decide⟩

/-- C10, amended: for every inbound callback the handler can destructure
(including an unknown checkoutRequestId), it responds 200 with an
acknowledgement body; but a request on which processing throws — a
malformed body (see the counterexample), or a failed save — is answered
with HTTP 500 by the catch block. -/
theorem mpesaCallback_wellFormed_200 (db : List MpesaTransaction)
    (cid : String) (code : Int) (desc : String)
    (metadata : Option (List MetaItem)) :
    (mpesaCallback db (.wellFormed cid code desc metadata)).1.status = 200 := by
  simp only [mpesaCallback]
  rcases h : db.find? (fun t => t.checkoutRequestId == cid) with _ | t <;> simp [h]

/-! ## Sale aggregate (backend/src/models/Sale.js) -/

/-- A JavaScript number as the totals pre-save hook handles it: `some q`
is an ordinary number, `none` is NaN (an undefined operand entering
arithmetic becomes NaN). -/
abbrev JsNum := Option ℚ

/-- JavaScript multiplication with NaN propagation. -/
def jsMul : JsNum → JsNum → JsNum
  | some a, some b => some (a * b)
  | _, _ => none

/-- JavaScript addition with NaN propagation. -/
def jsAdd : JsNum → JsNum → JsNum
  | some a, some b => some (a + b)
  | _, _ => none

/-- JavaScript subtraction with NaN propagation. -/
def jsSub : JsNum → JsNum → JsNum
  | some a, some b => some (a - b)
  | _, _ => none

/-- JavaScript division with NaN propagation (a division by zero, which
would be an infinity, is conflated with NaN; the hook only ever divides by
100). -/
def jsDiv : JsNum → JsNum → JsNum
  | some a, some b => if b = 0 then none else some (a / b)
  | _, _ => none

/-- The discount subdocument of a sale item: `{amount, percentage}`, both
defaulting to 0. -/
structure HookDiscount where
  amount : ℚ
  percentage : ℚ
deriving DecidableEq, Repr

/-- The tax subdocument of a sale item.  The schema defines ONLY
`tax.amount` — there is no `tax.rate` path. -/
structure HookTax where
  amount : JsNum
deriving DecidableEq, Repr

/-- Reading `item.tax.rate` on a schema-backed sale item: the path is not
part of the schema (strict mode strips it from input), so the read yields
undefined, which enters the hook's arithmetic as NaN. -/
def HookTax.rateRead (_t : HookTax) : JsNum := none

/-- A sale item as the totals pre-save hook reads and writes it. -/
structure HookItem where
  quantity : ℚ
  unitPrice : ℚ
  discount : HookDiscount
  tax : HookTax
  subtotal : JsNum
deriving DecidableEq, Repr

/-- The sale totals the hook writes. -/
structure HookTotals where
  subtotal : ℚ
  discount : ℚ
  tax : JsNum
  total : JsNum
deriving DecidableEq, Repr

/-- The totals pre-save hook of the sale schema, per item: itemSubtotal =
unitPrice * quantity; discount = percentage of itemSubtotal when a
percentage is set, else the fixed amount when set, else 0; tax = (the
discounted amount) * (item.tax.rate / 100) — where the `tax.rate` read
yields undefined (see `HookTax.rateRead`), so the product is NaN; the item's
`tax.amount` and `subtotal` are overwritten with these values. -/
def computeItemTotals (item : HookItem) : HookItem × ℚ × ℚ × JsNum :=
  let itemSubtotal := item.unitPrice * item.quantity
  let discount :=
    if item.discount.percentage > 0 then
      itemSubtotal * (item.discount.percentage / 100)
    else if item.discount.amount > 0 then item.discount.amount
    else 0
  let taxableAmount := itemSubtotal - discount
  let tax := jsMul (some taxableAmount) (jsDiv item.tax.rateRead (some 100))
  ({ item with tax := { amount := tax }, subtotal := jsAdd (some taxableAmount) tax },
   itemSubtotal, discount, tax)

/-- The whole totals hook: processes each item and accumulates
totals.subtotal, totals.discount, totals.tax and
totals.total = subtotal - discount + tax. -/
def computeSaleTotals (items : List HookItem) : List HookItem × HookTotals :=
  let processed := items.map computeItemTotals
  let subtotal := (processed.map (fun x => x.2.1)).sum
  let totalDiscount := (processed.map (fun x => x.2.2.1)).sum
  let totalTax := (processed.map (fun x => x.2.2.2)).foldl jsAdd (some 0)
  (processed.map (fun x => x.1),
   { subtotal := subtotal, discount := totalDiscount, tax := totalTax,
     total := jsAdd (jsSub (some subtotal) (some totalDiscount)) totalTax })

/-- The claim's intended per-item computation, stated from the spec's words
for comparison: tax is the given rate applied to the discounted amount, the
item subtotal is the discounted amount plus tax. -/
def specItemComputation (qty unitPrice discountPct rate : ℚ) : ℚ × ℚ × ℚ × ℚ :=
  let subtotal := unitPrice * qty
  let discount := subtotal * (discountPct / 100)
  let tax := (subtotal - discount) * (rate / 100)
  (subtotal, discount, tax, (subtotal - discount) + tax)

/-- The spec's example item: qty 2, unit price 100, 10 percent discount.
The 16 percent tax rate cannot be carried: `items.tax.rate` is not a schema
path, so a supplied rate is stripped on input. -/
def exampleHookItem : HookItem :=
  { quantity := 2, unitPrice := 100,
    discount := { amount := 0, percentage := 10 },
    tax := { amount := some 0 }, subtotal := some 0 }

/-- C5: the totals hook reads `item.tax.rate`, but the sale item schema
defines only `tax.amount`, so the read yields undefined and every tax
computation is NaN.  On the spec's example item the hook produces
subtotal 200 and discount 20 as claimed, but tax, item subtotal and sale
total are NaN — not 28.8, 208.8 and 208.8.  The spec-side formula
`specItemComputation` (the hook's evident intent, had the rate been a
schema field) does produce 28.8 and 208.8. -/
theorem saleTotals_tax_rate_missing :
    (computeSaleTotals [exampleHookItem]).2.subtotal = 200 ∧
    (computeSaleTotals [exampleHookItem]).2.discount = 20 ∧
    (computeSaleTotals [exampleHookItem]).2.tax = none ∧
    (computeSaleTotals [exampleHookItem]).2.total = none ∧
    ((computeSaleTotals [exampleHookItem]).1.map (fun item => item.subtotal)) = [none] ∧
    specItemComputation 2 100 10 16 = (200, 20, 144/5, 1044/5) ∧
    (144 / 5 : ℚ) = 28 + 8 / 10 ∧ (1044 / 5 : ℚ) = 208 + 8 / 10 := by
  refine ⟨?_, ?_, ?_, ?_, ?_, ?_, ?_, ?_⟩ <;> norm_num
    [computeSaleTotals, computeItemTotals, exampleHookItem, specItemComputation,
     jsMul, jsAdd, jsSub, jsDiv, HookTax.rateRead]

/-- A persisted sale line item as `void` and `refund` read it. -/
structure SaleItem where
  product : String
  productName : String
  quantity : Int
  unitPrice : ℚ
  subtotal : ℚ
deriving DecidableEq, Repr

/-- A requested refund line `{productId, quantity}`. -/
structure RefundReq where
  productId : String
  quantity : Int
deriving DecidableEq, Repr

/-- One entry of `refundInfo.refundedItems`. -/
structure RefundedItem where
  product : String
  quantity : Int
  amount : ℚ
deriving DecidableEq, Repr

/-- The `refundInfo` block `refund` assigns (the `refundedAt` date is not
modelled). -/
structure RefundInfo where
  refundedBy : String
  refundedItems : List RefundedItem
  totalRefunded : ℚ
  reason : String
deriving DecidableEq, Repr

/-- The `voidInfo` block `void` assigns (the `voidedAt` date is not
modelled). -/
structure VoidInfo where
  voidedBy : String
  reason : String
deriving DecidableEq, Repr

/-- The sale statuses. -/
inductive SaleStatus
  | completed
  | voided
  | refunded
  | partial_refund
deriving DecidableEq, Repr

/-- The persisted totals of a sale (`refund` reads `totals.total`). -/
structure SaleTotals where
  subtotal : ℚ
  discount : ℚ
  tax : ℚ
  total : ℚ
deriving DecidableEq, Repr

/-- A sale document, restricted to the fields `void` and `refund` touch. -/
structure Sale where
  receiptNumber : String
  items : List SaleItem
  totals : SaleTotals
  status : SaleStatus
  voidInfo : Option VoidInfo
  refundInfo : Option RefundInfo
deriving DecidableEq, Repr

/-- The persistent store of product documents, keyed by id. -/
abbrev ProductStore := List Product

/-- `Product.findById`. -/
def findProductById (store : ProductStore) (id : String) : Option Product :=
  store.find? (fun p => p.id == id)

/-- `await product.save()`: replace the stored document. -/
def saveProduct (store : ProductStore) (p : Product) : ProductStore :=
  store.map (fun q => if q.id == p.id then p else q)

/-- The per-line loop of `saleSchema.methods.refund`: for each requested
line, fail when the product was not part of the sale or the requested
quantity exceeds the quantity sold (checked against the original sold
quantity only); otherwise compute the proportional refund amount, restore
stock through `updateStock` with type `return` (a product missing from the
store is skipped, per the `if (product)` guard), and continue.  Stock
writes performed before a failing line persist: each `updateStock` call
saves its product immediately. -/
def refundLoop (s : Sale) (userId reason : String) :
    ProductStore → List RefundReq → List RefundedItem → ℚ →
    ProductStore × Except String (List RefundedItem × ℚ)
  | store, [], acc, total => (store, .ok (acc, total))
  | store, req :: rest, acc, total =>
      match s.items.find? (fun item => item.product == req.productId) with
      | none =>
          (store, .error ("Product " ++ req.productId ++ " not found in sale"))
      | some saleItem =>
          if req.quantity > saleItem.quantity then
            (store, .error "Cannot refund more than sold quantity")
          else
            let refundAmount :=
              (saleItem.subtotal / (saleItem.quantity : ℚ)) * (req.quantity : ℚ)
            let acc2 := acc ++ [⟨req.productId, req.quantity, refundAmount⟩]
            let total2 := total + refundAmount
            match findProductById store req.productId with
            | none => refundLoop s userId reason store rest acc2 total2
            | some product =>
                match product.updateStock req.quantity .ret s.receiptNumber
                    userId (some ("Refund: " ++ reason)) with
                | .error e => (store, .error e)
                | .ok p2 => refundLoop s userId reason (saveProduct store p2)
                    rest acc2 total2

/-- `saleSchema.methods.refund(userId, items, reason)`: fails on a voided
sale; otherwise processes the requested lines, then OVERWRITES `refundInfo`
with this call's refunded items and total, and sets the status to
`refunded` when this call's total reaches `totals.total`, else to
`partial_refund`.  On a failing line the sale itself is not saved. -/
def Sale.refund (s : Sale) (store : ProductStore) (userId : String)
    (reqs : List RefundReq) (reason : String) :
    ProductStore × Except String Sale :=
  if s.status = SaleStatus.voided then
    (store, .error "Cannot refund a voided sale")
  else
    match refundLoop s userId reason store reqs [] 0 with
    | (store2, .error e) => (store2, .error e)
    | (store2, .ok (refundedItems, totalRefunded)) =>
        (store2, .ok { s with
          refundInfo := some { refundedBy := userId,
                               refundedItems := refundedItems,
                               totalRefunded := totalRefunded,
                               reason := reason },
          status := if totalRefunded ≥ s.totals.total then SaleStatus.refunded
                    else SaleStatus.partial_refund })

/-- The restock loop of `saleSchema.methods.void`: one `return` movement of
the exact original quantity per item whose product is found. -/
def voidRestockLoop (receiptNumber userId reason : String) :
    ProductStore → List SaleItem → ProductStore × Except String Unit
  | store, [] => (store, .ok ())
  | store, item :: rest =>
      match findProductById store item.product with
      | none => voidRestockLoop receiptNumber userId reason store rest
      | some product =>
          match product.updateStock item.quantity .ret receiptNumber userId
              (some ("Voided sale: " ++ reason)) with
          | .error e => (store, .error e)
          | .ok p2 =>
              voidRestockLoop receiptNumber userId reason (saveProduct store p2) rest

/-- `saleSchema.methods.void(userId, reason)`: fails when already voided;
otherwise sets the status to voided, stamps `voidInfo`, and restores stock
for each item with a `return` movement. -/
def Sale.void (s : Sale) (store : ProductStore) (userId reason : String) :
    ProductStore × Except String Sale :=
  if s.status = SaleStatus.voided then
    (store, .error "Sale is already voided")
  else
    match voidRestockLoop s.receiptNumber userId reason store s.items with
    | (store2, .error e) => (store2, .error e)
    | (store2, .ok _) =>
        (store2, .ok { s with
          status := SaleStatus.voided,
          voidInfo := some { voidedBy := userId, reason := reason } })

/-- The stock-update loop `createSale` runs after saving the sale: one
`sale` movement per item, but only for products that track inventory.  The
source reads `product.inventory` without a null check, so a vanished
product would throw; the model returns that TypeError as an error. -/
def createSaleStockLoop (receiptNumber userId : String) :
    ProductStore → List SaleItem → ProductStore × Except String Unit
  | store, [] => (store, .ok ())
  | store, item :: rest =>
      match findProductById store item.product with
      | none => (store, .error "TypeError: product is null")
      | some product =>
          if product.inventory.trackInventory then
            match product.updateStock item.quantity .sale receiptNumber
                userId none with
            | .error e => (store, .error e)
            | .ok p2 =>
                createSaleStockLoop receiptNumber userId (saveProduct store p2) rest
          else createSaleStockLoop receiptNumber userId store rest

/-- A completed sale of 3 units of product p1 at 100 each. -/
def saleC3 : Sale :=
  { receiptNumber := "RCP2601050001",
    items := [⟨"p1", "Soda", 3, 100, 300⟩],
    totals := ⟨300, 0, 0, 300⟩,
    status := SaleStatus.completed, voidInfo := none, refundInfo := none }

/-- First refund call: 2 of the 3 sold units. -/
def refundRun1 : ProductStore × Except String Sale :=
  saleC3.refund [pWitness] "u1" [⟨"p1", 2⟩] "damaged"

/-- The sale as the first refund call saves it. -/
def saleAfter1 : Sale :=
  { saleC3 with
    refundInfo := some { refundedBy := "u1",
                         refundedItems := [⟨"p1", 2, 200⟩],
                         totalRefunded := 200, reason := "damaged" },
    status := SaleStatus.partial_refund }

/-- Second refund call on the already partially refunded sale: 2 more
units. -/
def refundRun2 : ProductStore × Except String Sale :=
  saleAfter1.refund refundRun1.1 "u1" [⟨"p1", 2⟩] "returned later"

/-- C3, counterexample: the sale sold 3 units, the first refund of 2 units
succeeds, and the second refund of 2 further units ALSO succeeds (each call
checks the requested quantity only against the original sold quantity, and
`refundInfo` is overwritten, not accumulated), so the cumulative refunded
quantity 2 + 2 = 4 exceeds the 3 units sold. -/
theorem refund_cumulative_exceeds_sold :
    refundRun1.2 = Except.ok saleAfter1 ∧
    refundRun2.2.map (fun s =>
        s.refundInfo.map (fun ri => ri.refundedItems.map (fun it => it.quantity))) =
      Except.ok (some [2]) ∧
    saleC3.items.map (fun it => it.quantity) = [3] ∧
    ¬((2 + 2 : Int) ≤ 3) := by
  refine ⟨?_, ?_, by decide, by decide⟩
  · norm_num +decide [refundRun1, saleC3, saleAfter1, Sale.refund, refundLoop,
      findProductById, pWitness, Product.updateStock, last100, saveProduct]
  · norm_num +decide [refundRun2, refundRun1, saleC3, saleAfter1, Sale.refund, refundLoop,
      findProductById, pWitness, Product.updateStock, last100, saveProduct]

/-- Shared evaluation lemma: one step of `refundLoop` on a line whose
product is part of the sale within the sold quantity. -/
theorem refundLoop_line_bound (s : Sale) (uid reason : String) :
    ∀ (reqs : List RefundReq) (store : ProductStore) (acc : List RefundedItem)
      (total : ℚ) (store2 : ProductStore) (out : List RefundedItem × ℚ),
      refundLoop s uid reason store reqs acc total = (store2, Except.ok out) →
      ∀ req ∈ reqs, ∃ item, item ∈ s.items ∧ item.product = req.productId ∧
        req.quantity ≤ item.quantity := by
  intro reqs
  induction reqs with
  | nil =>
      intro store acc total store2 out h req hreq
      simp at hreq
  | cons req rest ih =>
      intro store acc total store2 out h req2 hreq2
      rw [refundLoop] at h
      split at h
      · simp at h
      · rename_i saleItem hfind
        split at h
        · simp at h
        · rename_i hq
          have hmem : saleItem ∈ s.items := List.mem_of_find?_eq_some hfind
          have heq : saleItem.product = req.productId := by
            have hpred := List.find?_some hfind
            simpa using hpred
          rcases List.mem_cons.mp hreq2 with rfl | hmem2
          · exact ⟨saleItem, hmem, heq, le_of_not_lt hq⟩
          · dsimp only at h
            split at h
            · exact ih _ _ _ _ _ h req2 hmem2
            · split at h
              · simp at h
              · exact ih _ _ _ _ _ h req2 hmem2

/-- C3, amended: a single successful `refund` call does bound every
requested line by the quantity originally sold of that item (and does not
touch the sale's items or receipt number, and is refused on a voided sale);
but the check is against the original sold quantity only — `refundInfo` is
overwritten rather than accumulated — so the cumulative refunded quantity
across several calls can exceed the quantity sold (see the counterexample),
and the stock movements of lines processed before a failing line persist. -/
theorem refund_spec (s : Sale) (store : ProductStore) (uid : String)
    (reqs : List RefundReq) (reason : String) (store2 : ProductStore) (s2 : Sale)
    (h : s.refund store uid reqs reason = (store2, Except.ok s2)) :
    s.status ≠ SaleStatus.voided ∧
    (∀ req ∈ reqs, ∃ item, item ∈ s.items ∧ item.product = req.productId ∧
      req.quantity ≤ item.quantity) ∧
    s2.items = s.items ∧ s2.receiptNumber = s.receiptNumber := by
  rw [Sale.refund] at h
  by_cases hv : s.status = SaleStatus.voided
  · rw [if_pos hv] at h
    simp at h
  · rw [if_neg hv] at h
    rcases hloop : refundLoop s uid reason store reqs [] 0 with ⟨storeL, resL⟩
    rw [hloop] at h
    rcases resL with e | out
    · simp at h
    · rcases out with ⟨ris, tr⟩
      simp only [Prod.mk.injEq, Except.ok.injEq] at h
      refine ⟨hv, refundLoop_line_bound s uid reason reqs store [] 0 storeL
        ⟨ris, tr⟩ hloop, ?_, ?_⟩
      · rw [← h.2]
      · rw [← h.2]

/-- Witness for C3 (amended): the specification applied to the concrete
first refund call of the counterexample. -/
theorem refund_spec_witness :
    saleC3.status ≠ SaleStatus.voided ∧
    (∀ req ∈ [(⟨"p1", 2⟩ : RefundReq)], ∃ item, item ∈ saleC3.items ∧
      item.product = req.productId ∧ req.quantity ≤ item.quantity) ∧
    saleAfter1.items = saleC3.items ∧
    saleAfter1.receiptNumber = saleC3.receiptNumber :=
  refund_spec saleC3 [pWitness] "u1" [⟨"p1", 2⟩] "damaged" refundRun1.1 saleAfter1
    (by norm_num +decide [refundRun1, saleC3, saleAfter1, Sale.refund, refundLoop,
      findProductById, pWitness, Product.updateStock, last100, saveProduct])

/-- A product that does NOT track inventory, with 10 units recorded. -/
def pUntracked : Product :=
  { id := "p2", name := "Gift bag", isActive := true,
    pricing := { cost := 10, sellingPrice := 30, discount := 0 },
    inventory := { currentStock := 10, minStock := 0,
                   allowBackorder := false, trackInventory := false },
    stockMovements := [], performance := ⟨0, 0, false⟩ }

/-- A completed sale of 3 units of the untracked product p2. -/
def saleC6 : Sale :=
  { receiptNumber := "RCP2601050002",
    items := [⟨"p2", "Gift bag", 3, 30, 90⟩],
    totals := ⟨90, 0, 0, 90⟩,
    status := SaleStatus.completed, voidInfo := none, refundInfo := none }

/-- C6, counterexample: for an item whose product does not track inventory,
sale creation leaves the stock untouched (the createSale loop skips
untracked products), but `void` issues the `return` movement
unconditionally, so voiding raises the stock from 10 to 13 instead of
restoring the pre-sale value 10. -/
theorem void_untracked_overshoots :
    createSaleStockLoop "RCP2601050002" "u1" [pUntracked] saleC6.items =
      ([pUntracked], Except.ok ()) ∧
    ((saleC6.void [pUntracked] "u1" "entered by mistake").1.map
        (fun p => p.inventory.currentStock)) = [13] ∧
    pUntracked.inventory.currentStock = 10 ∧
    ¬((13 : Int) = 10) := by
  refine ⟨by decide, ?_, by decide, by decide⟩
  norm_num +decide [Sale.void, saleC6, voidRestockLoop, findProductById,
    pUntracked, Product.updateStock, last100, saveProduct]

/-- A tracked product (backorder disallowed) holding `stock` units. -/
def pTracked (stock : Int) : Product :=
  { id := "p1", name := "Soda", isActive := true,
    pricing := { cost := 50, sellingPrice := 100, discount := 0 },
    inventory := { currentStock := stock, minStock := 2,
                   allowBackorder := false, trackInventory := true },
    stockMovements := [], performance := ⟨0, 0, false⟩ }

/-- A completed sale of `q` units of p1 at 100 each. -/
def saleOf (q : Int) : Sale :=
  { receiptNumber := "RCP2601050003",
    items := [⟨"p1", "Soda", q, 100, 100 * (q : ℚ)⟩],
    totals := ⟨100 * (q : ℚ), 0, 0, 100 * (q : ℚ)⟩,
    status := SaleStatus.completed, voidInfo := none, refundInfo := none }

/-- The state of p1 after the createSale stock loop sold `q` units. -/
def pAfterSaleOf (stock q : Int) (uid : String) : Product :=
  { id := "p1", name := "Soda", isActive := true,
    pricing := ⟨50, 100, 0⟩,
    inventory := ⟨stock - q, 2, false, true⟩,
    stockMovements :=
      [⟨MovementType.sale, q, stock, stock - q, "RCP2601050003", none, uid⟩],
    performance := ⟨q, (q : ℚ) * 100, true⟩ }

/-- The state of p1 after the void restored the `q` units. -/
def pAfterVoidOf (stock q : Int) (uid reason : String) : Product :=
  { id := "p1", name := "Soda", isActive := true,
    pricing := ⟨50, 100, 0⟩,
    inventory := ⟨stock, 2, false, true⟩,
    stockMovements :=
      [⟨MovementType.sale, q, stock, stock - q, "RCP2601050003", none, uid⟩,
       ⟨MovementType.ret, q, stock - q, stock, "RCP2601050003",
        some ("Voided sale: " ++ reason), uid⟩],
    performance := ⟨q, (q : ℚ) * 100, true⟩ }

/-- The sale as `void` saves it: status voided, voidInfo stamped. -/
def voidedSaleOf (q : Int) (uid reason : String) : Sale :=
  { saleOf q with
    status := SaleStatus.voided
    voidInfo := some ⟨uid, reason⟩ }

/-- C6, amended: for a sale of `q` units of a product that DOES track
inventory, with `0 ≤ q ≤ stock`: creating the sale brings the stock to
stock - q; `void` succeeds, sets the status to voided, stamps the void
info, restores the stock to exactly its pre-sale value and appends one
`return` movement of exactly `q`; a second void fails with "Sale is
already voided".  For a product that does not track inventory the
restoration overshoots instead (see the counterexample). -/
theorem void_restores_stock (stock q : Int) (uid reason : String)
    (hq : 0 ≤ q) (hle : q ≤ stock) :
    createSaleStockLoop "RCP2601050003" uid [pTracked stock] (saleOf q).items =
      ([pAfterSaleOf stock q uid], Except.ok ()) ∧
    (pAfterSaleOf stock q uid).inventory.currentStock = stock - q ∧
    (saleOf q).void [pAfterSaleOf stock q uid] uid reason =
      ([pAfterVoidOf stock q uid reason],
       Except.ok (voidedSaleOf q uid reason)) ∧
    (pAfterVoidOf stock q uid reason).inventory.currentStock = stock ∧
    ((pAfterVoidOf stock q uid reason).stockMovements.map
        (fun m => (m.type, m.quantity))) =
      [(MovementType.sale, q), (MovementType.ret, q)] ∧
    (voidedSaleOf q uid reason).void
        [pAfterVoidOf stock q uid reason] uid reason =
      ([pAfterVoidOf stock q uid reason],
       Except.error "Sale is already voided") := by
  have hnn : ¬(stock - q < 0) := by omega
  have hnn2 : ¬(stock - q + q < 0) := by omega
  have hs : ¬(stock < 0) := by omega
  refine ⟨?_, rfl, ?_, rfl, by simp [pAfterVoidOf], ?_⟩
  · norm_num +decide [createSaleStockLoop, saleOf, findProductById, pTracked,
      Product.updateStock, Product.effectivePrice, last100, saveProduct,
      pAfterSaleOf, hnn]
  · norm_num +decide [Sale.void, saleOf, voidedSaleOf, voidRestockLoop,
      findProductById, pAfterSaleOf, pAfterVoidOf, Product.updateStock,
      Product.effectivePrice, last100, saveProduct, hnn2, hs]
  · norm_num +decide [Sale.void, voidedSaleOf, saleOf]

/-- Witness for C6 (amended): the spec's concrete example — stock 10, sale
of 3, void restores 10 with a return movement of 3. -/
theorem void_restores_stock_witness :
    createSaleStockLoop "RCP2601050003" "u1" [pTracked 10] (saleOf 3).items =
      ([pAfterSaleOf 10 3 "u1"], Except.ok ()) ∧
    (pAfterSaleOf 10 3 "u1").inventory.currentStock = 10 - 3 ∧
    (saleOf 3).void [pAfterSaleOf 10 3 "u1"] "u1" "wrong order" =
      ([pAfterVoidOf 10 3 "u1" "wrong order"],
       Except.ok (voidedSaleOf 3 "u1" "wrong order")) ∧
    (pAfterVoidOf 10 3 "u1" "wrong order").inventory.currentStock = 10 ∧
    ((pAfterVoidOf 10 3 "u1" "wrong order").stockMovements.map
        (fun m => (m.type, m.quantity))) =
      [(MovementType.sale, 3), (MovementType.ret, 3)] ∧
    (voidedSaleOf 3 "u1" "wrong order").void
        [pAfterVoidOf 10 3 "u1" "wrong order"] "u1" "wrong order" =
      ([pAfterVoidOf 10 3 "u1" "wrong order"],
       Except.error "Sale is already voided") :=
  void_restores_stock 10 3 "u1" "wrong order" (by decide) (by decide)

/-! ## Order aggregate (backend/src/models/Order.js,
backend/src/controllers/orderController.js) -/

/-- The order statuses. -/
inductive OrderStatus
  | pending
  | confirmed
  | processing
  | ready
  | out_for_delivery
  | delivered
  | cancelled
  | failed
deriving DecidableEq, Repr

/-- The status name as it appears in the transition error message. -/
def OrderStatus.name : OrderStatus → String
  | .pending => "pending"
  | .confirmed => "confirmed"
  | .processing => "processing"
  | .ready => "ready"
  | .out_for_delivery => "out_for_delivery"
  | .delivered => "delivered"
  | .cancelled => "cancelled"
  | .failed => "failed"

/-- The `validTransitions` table of `updateOrderStatus` in the order
controller. -/
def validTransitions : OrderStatus → List OrderStatus
  | .pending => [.confirmed, .cancelled]
  | .confirmed => [.processing, .cancelled]
  | .processing => [.ready, .cancelled]
  | .ready => [.out_for_delivery, .delivered, .cancelled]
  | .out_for_delivery => [.delivered, .failed]
  | .delivered => []
  | .cancelled => []
  | .failed => [.out_for_delivery, .cancelled]

/-- One `statusHistory` entry (the timestamp is not modelled). -/
structure StatusHistoryEntry where
  status : OrderStatus
  updatedBy : String
  notes : Option String
  location : Option String
deriving DecidableEq, Repr

/-- An order document, restricted to the fields the status machine and the
delivery stock loop touch.  Order line items carry the same fields the
loops read as sale items, so `SaleItem` is reused.  Date stamps
(`packingCompleted`, `actualDeliveryDate`) are presence markers. -/
structure Order where
  orderNumber : String
  items : List SaleItem
  status : OrderStatus
  statusHistory : List StatusHistoryEntry
  customer : Option String
  assignedTo : Option String
  createdBy : String
  customerNotified : Bool
  packingCompletedSet : Bool
  actualDeliveryDateSet : Bool
  paymentStatus : String
  cancellationSet : Bool
deriving DecidableEq, Repr

/-- `orderSchema.methods.updateStatus(newStatus, userId, notes, location)`:
set the status, push a history entry, apply the per-status side effects
(`delivered` also marks the payment paid), then save — and the pre-save
hook, seeing the status modified, pushes a SECOND history entry with
`updatedBy = assignedTo || createdBy`.  The method itself performs no
transition validation. -/
def Order.updateStatus (o : Order) (newStatus : OrderStatus) (userId : String)
    (notes location : Option String) : Order :=
  let o1 := { o with
    status := newStatus,
    statusHistory := o.statusHistory ++
      [(⟨newStatus, userId, notes, location⟩ : StatusHistoryEntry)] }
  let o2 :=
    match newStatus with
    | .confirmed => { o1 with customerNotified := false }
    | .ready => { o1 with packingCompletedSet := true }
    | .delivered => { o1 with actualDeliveryDateSet := true, paymentStatus := "paid" }
    | .cancelled => { o1 with cancellationSet := true }
    | _ => o1
  { o2 with statusHistory := o2.statusHistory ++
      [(⟨newStatus, o.assignedTo.getD o.createdBy, none, none⟩ : StatusHistoryEntry)] }

/-- The stock loop of the controller's `delivered` branch: one `sale`
movement per item whose product is found AND tracks inventory. -/
def deliveredStockLoop (orderNumber userId : String) :
    ProductStore → List SaleItem → ProductStore × Except String Unit
  | store, [] => (store, .ok ())
  | store, item :: rest =>
      match findProductById store item.product with
      | none => deliveredStockLoop orderNumber userId store rest
      | some product =>
          if product.inventory.trackInventory then
            match product.updateStock item.quantity .sale orderNumber userId
                (some "Order delivered") with
            | .error e => (store, .error e)
            | .ok p2 =>
                deliveredStockLoop orderNumber userId (saveProduct store p2) rest
          else deliveredStockLoop orderNumber userId store rest

/-- `updateOrderStatus` (controller): reject a transition not in the table
with an error naming both statuses (the order is untouched); otherwise
apply `Order.updateStatus` (which saves), then run the stock loop only for
a transition into `delivered` — the explicit `cancelled` branch changes no
stock.  The customer-statistics update on delivery touches no product and
is not modelled. -/
def updateOrderStatus (o : Order) (newStatus : OrderStatus) (userId : String)
    (notes location : Option String) (store : ProductStore) :
    ProductStore × Except String Order :=
  if newStatus ∈ validTransitions o.status then
    let o2 := o.updateStatus newStatus userId notes location
    if newStatus = OrderStatus.delivered then
      match deliveredStockLoop o.orderNumber userId store o2.items with
      | (store2, .error e) => (store2, .error e)
      | (store2, .ok _) => (store2, .ok o2)
    else (store, .ok o2)
  else
    (store, .error ("Cannot change status from " ++ o.status.name ++
      " to " ++ newStatus.name))

/-- The validation loop of `createOrder`: product must exist, be active
and (when tracked, without backorder) have sufficient stock.  It only
reads the store. -/
def createOrderValidate (store : ProductStore) : List SaleItem → Except String Unit
  | [] => .ok ()
  | item :: rest =>
      match findProductById store item.product with
      | none => .error "Product not found"
      | some product =>
          if product.isActive = false then
            .error ("Product " ++ product.name ++ " is not available")
          else if product.inventory.trackInventory = true ∧
              product.inventory.currentStock < item.quantity ∧
              product.inventory.allowBackorder = false then
            .error ("Insufficient stock for " ++ product.name)
          else createOrderValidate store rest

/-- `createOrder` (controller): validate the items against the store, then
build and save the order — the store is returned untouched, since order
creation performs no stock write (the pre-save hook pushes the initial
`pending` history entry).  Customer upsert and delivery-fee lookup touch
no product and are not modelled. -/
def createOrder (store : ProductStore) (items : List SaleItem)
    (orderNumber uid : String) : ProductStore × Except String Order :=
  (store,
   match createOrderValidate store items with
   | .error e => .error e
   | .ok _ => .ok
      { orderNumber := orderNumber, items := items, status := .pending,
        statusHistory := [⟨.pending, uid, none, none⟩],
        customer := none, assignedTo := some uid, createdBy := uid,
        customerNotified := false, packingCompletedSet := false,
        actualDeliveryDateSet := false, paymentStatus := "pending",
        cancellationSet := false })

/-- C7: the transition table permits exactly the claimed transitions (the
eight equations below); a requested transition outside the table fails
with an error naming the current and the attempted status, leaving the
order unsaved and its status unchanged; and every successful transition
sets the new status and appends to `statusHistory` (the method pushes the
entry with actor/notes/location and the pre-save hook pushes a second
entry for the same status). -/
theorem updateOrderStatus_spec (o : Order) (ns : OrderStatus) (uid : String)
    (notes location : Option String) (store : ProductStore) :
    (validTransitions OrderStatus.pending =
      [OrderStatus.confirmed, OrderStatus.cancelled]) ∧
    (validTransitions OrderStatus.confirmed =
      [OrderStatus.processing, OrderStatus.cancelled]) ∧
    (validTransitions OrderStatus.processing =
      [OrderStatus.ready, OrderStatus.cancelled]) ∧
    (validTransitions OrderStatus.ready =
      [OrderStatus.out_for_delivery, OrderStatus.delivered, OrderStatus.cancelled]) ∧
    (validTransitions OrderStatus.out_for_delivery =
      [OrderStatus.delivered, OrderStatus.failed]) ∧
    (validTransitions OrderStatus.failed =
      [OrderStatus.out_for_delivery, OrderStatus.cancelled]) ∧
    (validTransitions OrderStatus.delivered = []) ∧
    (validTransitions OrderStatus.cancelled = []) ∧
    (ns ∉ validTransitions o.status →
      updateOrderStatus o ns uid notes location store =
        (store, Except.error ("Cannot change status from " ++ o.status.name ++
          " to " ++ ns.name))) ∧
    (∀ o2 store2,
      updateOrderStatus o ns uid notes location store = (store2, Except.ok o2) →
      ns ∈ validTransitions o.status ∧ o2.status = ns ∧
      o2.statusHistory = o.statusHistory ++
        [⟨ns, uid, notes, location⟩,
         ⟨ns, o.assignedTo.getD o.createdBy, none, none⟩]) := by
  refine ⟨rfl, rfl, rfl, rfl, rfl, rfl, rfl, rfl, ?_, ?_⟩
  · intro h
    simp [updateOrderStatus, h]
  · intro o2 store2 h
    by_cases hmem : ns ∈ validTransitions o.status
    · refine ⟨hmem, ?_⟩
      rw [updateOrderStatus, if_pos hmem] at h
      by_cases hd : ns = OrderStatus.delivered
      · rw [if_pos hd] at h
        rcases hloop : deliveredStockLoop o.orderNumber uid store
            (o.updateStatus ns uid notes location).items with ⟨storeL, resL⟩
        rw [hloop] at h
        rcases resL with e | u
        · simp at h
        · simp only [Prod.mk.injEq, Except.ok.injEq] at h
          obtain ⟨h1, h2⟩ := h
          subst h2
          subst hd
          simp [Order.updateStatus, List.append_assoc]
      · rw [if_neg hd] at h
        simp only [Prod.mk.injEq, Except.ok.injEq] at h
        obtain ⟨h1, h2⟩ := h
        subst h2
        cases ns <;> simp [Order.updateStatus, List.append_assoc]
    · rw [updateOrderStatus, if_neg hmem] at h
      simp at h

/-- Witness for C7: the spec's concrete rejected jump — an order in
`pending` cannot move directly to `delivered`, and a pending order can be
confirmed, appending history. -/
theorem updateOrderStatus_spec_witness :
    (OrderStatus.delivered ∉ validTransitions OrderStatus.pending) ∧
    updateOrderStatus
        { orderNumber := "ORD1", items := [], status := OrderStatus.pending,
          statusHistory := [], customer := none, assignedTo := some "u1",
          createdBy := "u1", customerNotified := false,
          packingCompletedSet := false, actualDeliveryDateSet := false,
          paymentStatus := "pending", cancellationSet := false }
        OrderStatus.delivered "u1" none none [] =
      ([], Except.error
        ("Cannot change status from " ++ OrderStatus.pending.name ++
          " to " ++ OrderStatus.delivered.name)) := by
  have h := updateOrderStatus_spec
    { orderNumber := "ORD1", items := [], status := OrderStatus.pending,
      statusHistory := [], customer := none, assignedTo := some "u1",
      createdBy := "u1", customerNotified := false,
      packingCompletedSet := false, actualDeliveryDateSet := false,
      paymentStatus := "pending", cancellationSet := false }
    OrderStatus.delivered "u1" none none []
  exact ⟨by decide, h.2.2.2.2.2.2.2.2.1 (by decide)⟩

/-- An order for `q` units of the given product, in the given status. -/
def orderFor (q : Int) (st : OrderStatus) (productId : String) : Order :=
  { orderNumber := "ORD1",
    items := [⟨productId, "Item", q, 100, 100 * (q : ℚ)⟩],
    status := st, statusHistory := [], customer := none,
    assignedTo := some "u1", createdBy := "u1",
    customerNotified := false, packingCompletedSet := false,
    actualDeliveryDateSet := false, paymentStatus := "pending",
    cancellationSet := false }

/-- C8, counterexample: delivering an order whose item's product does not
track inventory succeeds but decrements nothing — no `sale` movement is
recorded for that item, contradicting "a stock decrement ... for each
order item occurs exactly once, on the transition into delivered". -/
theorem delivery_untracked_no_decrement :
    ((updateOrderStatus (orderFor 5 OrderStatus.ready "p2") OrderStatus.delivered
        "u1" none none [pUntracked]).2.map (fun o => o.status)) =
      Except.ok OrderStatus.delivered ∧
    ((updateOrderStatus (orderFor 5 OrderStatus.ready "p2") OrderStatus.delivered
        "u1" none none [pUntracked]).1.map (fun p => p.inventory.currentStock)) =
      [10] ∧
    ((updateOrderStatus (orderFor 5 OrderStatus.ready "p2") OrderStatus.delivered
        "u1" none none [pUntracked]).1.map (fun p => p.stockMovements)) = [[]] ∧
    pUntracked.inventory.currentStock = 10 := by decide

/-- The state of p1 after an order of `q` units was delivered. -/
def pAfterDeliveryOf (stock q : Int) (uid : String) : Product :=
  { id := "p1", name := "Soda", isActive := true,
    pricing := ⟨50, 100, 0⟩,
    inventory := ⟨stock - q, 2, false, true⟩,
    stockMovements :=
      [⟨MovementType.sale, q, stock, stock - q, "ORD1",
        some "Order delivered", uid⟩],
    performance := ⟨q, (q : ℚ) * 100, true⟩ }

/-- C8, amended: order creation returns the product store untouched; every
transition other than into `delivered` (cancellation included) leaves the
store untouched; `delivered` is terminal, so the delivery decrement can
happen at most once per order; and delivering an order of `q` units of a
product that DOES track inventory decrements its stock by exactly `q`,
recording exactly one `sale` movement.  For a product that does not track
inventory no decrement ever occurs (see the counterexample). -/
theorem order_stock_delivery_spec (stock q : Int) (uid : String)
    (notes location : Option String) (hle : q ≤ stock) :
    (∀ (store : ProductStore) (items : List SaleItem) (num uid2 : String),
      (createOrder store items num uid2).1 = store) ∧
    (∀ (o : Order) (ns : OrderStatus) (uid2 : String)
       (notes2 location2 : Option String) (store : ProductStore),
      ns ≠ OrderStatus.delivered →
      (updateOrderStatus o ns uid2 notes2 location2 store).1 = store) ∧
    (∀ (o : Order) (ns : OrderStatus) (uid2 : String)
       (notes2 location2 : Option String) (store : ProductStore),
      o.status = OrderStatus.delivered →
      updateOrderStatus o ns uid2 notes2 location2 store =
        (store, Except.error ("Cannot change status from " ++
          OrderStatus.delivered.name ++ " to " ++ ns.name))) ∧
    (updateOrderStatus (orderFor q OrderStatus.ready "p1") OrderStatus.delivered
        uid notes location [pTracked stock] =
      ([pAfterDeliveryOf stock q uid],
       Except.ok ((orderFor q OrderStatus.ready "p1").updateStatus
         OrderStatus.delivered uid notes location))) ∧
    ((pAfterDeliveryOf stock q uid).inventory.currentStock = stock - q) ∧
    ((pAfterDeliveryOf stock q uid).stockMovements.map
        (fun m => (m.type, m.quantity)) = [(MovementType.sale, q)]) := by
  have hnn : ¬(stock - q < 0) := by omega
  refine ⟨fun store items num uid2 => rfl, ?_, ?_, ?_, rfl, by simp [pAfterDeliveryOf]⟩
  · intro o ns uid2 notes2 location2 store h
    rw [updateOrderStatus]
    split <;> simp [h]
  · intro o ns uid2 notes2 location2 store h
    simp [updateOrderStatus, h, validTransitions]
  · norm_num +decide [updateOrderStatus, validTransitions, orderFor,
      Order.updateStatus, deliveredStockLoop, findProductById, pTracked,
      pAfterDeliveryOf, Product.updateStock, Product.effectivePrice, last100,
      saveProduct, hnn]

/-- Witness for C8 (amended): the spec's concrete example — an order of 5
units against stock 10; creation changes nothing and delivery decrements
by exactly 5, once. -/
theorem order_stock_delivery_spec_witness :
    (∀ (store : ProductStore) (items : List SaleItem) (num uid2 : String),
      (createOrder store items num uid2).1 = store) ∧
    (∀ (o : Order) (ns : OrderStatus) (uid2 : String)
       (notes2 location2 : Option String) (store : ProductStore),
      ns ≠ OrderStatus.delivered →
      (updateOrderStatus o ns uid2 notes2 location2 store).1 = store) ∧
    (∀ (o : Order) (ns : OrderStatus) (uid2 : String)
       (notes2 location2 : Option String) (store : ProductStore),
      o.status = OrderStatus.delivered →
      updateOrderStatus o ns uid2 notes2 location2 store =
        (store, Except.error ("Cannot change status from " ++
          OrderStatus.delivered.name ++ " to " ++ ns.name))) ∧
    (updateOrderStatus (orderFor 5 OrderStatus.ready "p1") OrderStatus.delivered
        "u1" none none [pTracked 10] =
      ([pAfterDeliveryOf 10 5 "u1"],
       Except.ok ((orderFor 5 OrderStatus.ready "p1").updateStatus
         OrderStatus.delivered "u1" none none))) ∧
    ((pAfterDeliveryOf 10 5 "u1").inventory.currentStock = 10 - 5) ∧
    ((pAfterDeliveryOf 10 5 "u1").stockMovements.map
        (fun m => (m.type, m.quantity)) = [(MovementType.sale, 5)]) :=
  order_stock_delivery_spec 10 5 "u1" none none (by decide)
